import Mathlib

/-!
Shallow embedding of the Phala XCM adapter pallet
(`pallets/xcm-adapter/src/lib.rs`), covering:

* the data model: `ChainId`, `PHAXCurrencyId`, the xcm v0 types
  `Junction`, `MultiLocation`, `MultiAsset` (as consumed by the pallet),
  and the `NativeTokens` registry (a `BTreeMap<Vec<u8>, MultiLocation>`
  provided through a `Get` implementation, modelled as a point lookup
  function);
* `NativePalletAssetOr::filter_asset_location` (the asset-origin trust
  filter);
* `XCurrencyIdConverter::from_asset_and_location` (the currency identity
  resolver);
* `IsConcreteWithGeneralKey::matches_fungible` (the fungible amount
  matcher), parametric in the configured currency-key parser, the
  relay-chain decimal rebasing hook and the checked balance conversion,
  exactly as the Rust struct is generic over `CurrencyId`,
  `FromRelayChainBalance` and the balance type `B`;
* `Module::deposit_asset` and `Module::withdraw_asset` (the
  `TransactAsset` implementation), parametric in the runtime-configured
  `AccountIdConverter`, `XCurrencyIdConverter` and `Matcher` capabilities
  as the `Trait` configuration leaves them abstract;
* the `Into<Vec<u8>>` serialization of `PHAXCurrencyId` (SCALE tag of the
  `ChainId` followed by the raw currency bytes).

Rust `Vec<u8>` byte strings become `List Nat`, `u128` amounts and `u32`
parachain ids become `Nat` (the code performs no arithmetic on them other
than through abstract hooks, so no wrap-around modelling is needed; where
the fixed width of `u32` matters, for the SCALE round trip, the bound
`id < 2 ^ 32` is an explicit hypothesis).  The two registry fetches that
the Rust code performs per branch (`NativeTokens::get()` called once for
`contains_key` and once for `get`) read the same configured constant, so
a single registry value is threaded through; the `.unwrap()` on the
second fetch is embedded faithfully via the `PanicOr` result type, whose
`panicked` constructor marks the would-panic branch.
-/

/-- Byte strings (`Vec<u8>`): currency keys, general keys, encodings. -/
abbrev Bytes := List Nat

/-- The xcm v0 `Junction` segments of a structured address.  `Parachain`
carries a `u32` id; `GeneralKey` carries raw bytes.  The remaining
variants are carried verbatim (with their payloads collapsed to numeric
or byte data, which the pallet never inspects) so that distinct
junctions stay distinct under location equality. -/
inductive Junction : Type
  | Parent : Junction
  | Parachain (id : Nat) : Junction
  | AccountId32 (network : Nat) (id : Bytes) : Junction
  | AccountIndex64 (network : Nat) (index : Nat) : Junction
  | AccountKey20 (network : Nat) (key : Bytes) : Junction
  | PalletInstance (index : Nat) : Junction
  | GeneralIndex (id : Nat) : Junction
  | GeneralKey (key : Bytes) : Junction
  | OnlyChild : Junction
  | Plurality (id : Nat) (part : Nat) : Junction
deriving DecidableEq, Repr

/-- The xcm v0 `MultiLocation`: a path of zero to four junctions. -/
inductive MultiLocation : Type
  | Null : MultiLocation
  | X1 (j1 : Junction) : MultiLocation
  | X2 (j1 j2 : Junction) : MultiLocation
  | X3 (j1 j2 j3 : Junction) : MultiLocation
  | X4 (j1 j2 j3 j4 : Junction) : MultiLocation
deriving DecidableEq, Repr

/-- The `MultiLocation::last` accessor: the final junction, if any. -/
def MultiLocation.last : MultiLocation → Option Junction
  | .Null => none
  | .X1 j1 => some j1
  | .X2 _ j2 => some j2
  | .X3 _ _ j3 => some j3
  | .X4 _ _ _ j4 => some j4

/-- The xcm v0 `MultiAsset`.  The pallet only ever matches the
`ConcreteFungible` variant; the others are carried so that the
fall-through branches are genuine. -/
inductive MultiAsset : Type
  | NoneAsset : MultiAsset
  | All : MultiAsset
  | AllFungible : MultiAsset
  | AllNonFungible : MultiAsset
  | AllAbstractFungible (id : Bytes) : MultiAsset
  | AllAbstractNonFungible (cls : Bytes) : MultiAsset
  | AllConcreteFungible (id : MultiLocation) : MultiAsset
  | AllConcreteNonFungible (cls : MultiLocation) : MultiAsset
  | AbstractFungible (id : Bytes) (amount : Nat) : MultiAsset
  | AbstractNonFungible (cls : Bytes) (inst : Bytes) : MultiAsset
  | ConcreteFungible (id : MultiLocation) (amount : Nat) : MultiAsset
  | ConcreteNonFungible (cls : MultiLocation) (inst : Bytes) : MultiAsset
deriving DecidableEq, Repr

/-- `ChainId`: the reserve chain of a currency. -/
inductive ChainId : Type
  | RelayChain : ChainId
  | ParaChain (id : Nat) : ChainId
deriving DecidableEq, Repr

/-- `PHAXCurrencyId`: identity of a cross chain currency. -/
structure PHAXCurrencyId : Type where
  chain_id : ChainId
  currency_id : Bytes
deriving DecidableEq, Repr

/-- The little-endian 4-byte SCALE encoding of a `u32` (used by the
derived `Encode` for `ParaId`). -/
def u32LE (n : Nat) : Bytes :=
  [n % 256, n / 256 % 256, n / 2 ^ 16 % 256, n / 2 ^ 24 % 256]

/-- The derived SCALE `Encode` for `ChainId`: a one-byte variant tag
(`RelayChain` is variant 0, `ParaChain` variant 1) followed by the
variant payload (`ParaId`, a `u32`, in fixed 4-byte little-endian). -/
def ChainId.encode : ChainId → Bytes
  | .RelayChain => [0]
  | .ParaChain id => 1 :: u32LE id

/-- The `Into<Vec<u8>>` impl for `PHAXCurrencyId`:
`[ChainId::encode(&self.chain_id), self.currency_id].concat()`. -/
def PHAXCurrencyId.intoVecU8 (c : PHAXCurrencyId) : Bytes :=
  ChainId.encode c.chain_id ++ c.currency_id

/-- Well-formedness of a constructible `ChainId`: a `ParaId` is a `u32`. -/
def ChainId.WF : ChainId → Prop
  | .RelayChain => True
  | .ParaChain id => id < 2 ^ 32

instance : DecidablePred ChainId.WF := fun c =>
  match c with
  | .RelayChain => Decidable.isTrue True.intro
  | .ParaChain id => inferInstanceAs (Decidable (id < 2 ^ 32))

/-- Modelled from the spec: the decoder for the §3 serialization of
`CrossChainCurrencyId` (the source only provides the encoder, its
`Into<Vec<u8>>` impl).  It reads the self-delimiting `ChainId` tag
(variant byte, then the 4-byte `u32` payload for `ParaChain`) and takes
every remaining byte as the raw `currency_id`. -/
def decodePHAXCurrencyId : Bytes → Option PHAXCurrencyId
  | 0 :: rest => some ⟨ChainId.RelayChain, rest⟩
  | 1 :: b0 :: b1 :: b2 :: b3 :: rest =>
      some ⟨ChainId.ParaChain (b0 + 256 * b1 + 2 ^ 16 * b2 + 2 ^ 24 * b3), rest⟩
  | _ => none

/-- The byte string `b"DOT"` (the hard-coded relay-chain currency id). -/
def dotBytes : Bytes := [68, 79, 84]

/-- The `NativeTokens` registry: `Get<BTreeMap<Vec<u8>, MultiLocation>>`,
modelled by its point lookup (`get`); `contains_key` is `Option.isSome`
of the lookup.  The `Get` implementation returns the same configured
constant on every call, so both fetches in a branch read this value. -/
abbrev Registry := Bytes → Option MultiLocation

/-- A `BTreeMap` insert of a fresh binding, used to state registry
monotonicity. -/
def Registry.insert (r : Registry) (k : Bytes) (v : MultiLocation) : Registry :=
  fun x => if x = k then some v else r x

/-- Result of a Rust function that contains an `unwrap()`: either the
returned value or the would-panic branch. -/
inductive PanicOr (α : Type) : Type
  | ok (val : α) : PanicOr α
  | panicked : PanicOr α
deriving DecidableEq, Repr

/-- `XCurrencyIdConverter::from_asset_and_location`.  The registry is the
`NativeTokens` configuration; the `multi_location` argument is accepted
but, as in the source, never read. -/
def from_asset_and_location (registry : Registry) (multi_asset : MultiAsset)
    (multi_location : MultiLocation) : PanicOr (Option PHAXCurrencyId) :=
  match multi_asset with
  | .ConcreteFungible id _amount =>
      if id = .X1 .Parent then
        PanicOr.ok (some { chain_id := ChainId.RelayChain, currency_id := dotBytes })
      else
        match id.last with
        | some (.GeneralKey key) =>
            if (registry key).isSome then
              match registry key with
              | some (.X2 .Parent (.Parachain paraid)) =>
                  PanicOr.ok (some { chain_id := ChainId.ParaChain paraid,
                                     currency_id := key })
              | some _ => PanicOr.ok none
              | none => PanicOr.panicked
            else PanicOr.ok none
        | _ => PanicOr.ok none
  | _ => PanicOr.ok none

/-- `NativePalletAssetOr::filter_asset_location`.  The host baseline
`NativeAsset::filter_asset_location` is an external `xcm_executor`
capability, passed in as the `nativeAsset` parameter. -/
def filter_asset_location (nativeAsset : MultiAsset → MultiLocation → Bool)
    (registry : Registry) (asset : MultiAsset) (origin : MultiLocation) :
    PanicOr Bool :=
  if nativeAsset asset origin then
    PanicOr.ok true
  else
    match asset with
    | .ConcreteFungible id _amount =>
        match id.last with
        | some (.GeneralKey key) =>
            if (registry key).isSome then
              match registry key with
              | some reserve => PanicOr.ok (decide (origin = reserve))
              | none => PanicOr.panicked
            else PanicOr.ok false
        | _ => PanicOr.ok false
    | _ => PanicOr.ok false

/-- `IsConcreteWithGeneralKey::matches_fungible`, generic over the
balance type `B` and parametrized by the configured pieces:
`currencyKeyOk key` models `TryInto::<CurrencyId>::try_into(key).is_ok()`,
`fromRelayChainBalance` models `FromRelayChainBalance::convert` on
`u128`, and `checkedFromU128` models `CheckedConversion::checked_from`
into `B` (that is, `B::try_from(..).ok()`). -/
def matches_fungible {B : Type} (currencyKeyOk : Bytes → Bool)
    (fromRelayChainBalance : Nat → Nat) (checkedFromU128 : Nat → Option B)
    (a : MultiAsset) : Option B :=
  match a with
  | .ConcreteFungible id amount =>
      if id = .X1 .Parent then
        checkedFromU128 (fromRelayChainBalance amount)
      else
        match id.last with
        | some (.GeneralKey key) =>
            if currencyKeyOk key then checkedFromU128 amount else none
        | _ => none
  | _ => none

/-- The two event kinds declared by the pallet, with their payloads
`(currency_id bytes, account, balance, to_tee flag)`. -/
inductive XEvent (AccountId Balance : Type) : Type
  | DepositAsset (currency_id : Bytes) (who : AccountId) (amount : Balance)
      (to_tee : Bool) : XEvent AccountId Balance
  | WithdrawAsset (currency_id : Bytes) (who : AccountId) (amount : Balance)
      (to_tee : Bool) : XEvent AccountId Balance
deriving DecidableEq, Repr

/-- `Module::deposit_asset` of the `TransactAsset` impl, parametric in the
runtime configuration: `accountFromLocation` is
`T::AccountIdConverter::from_location`, `currencyFrom` is
`T::XCurrencyIdConverter::from_asset_and_location`, `matcher` is
`T::Matcher::matches_fungible`, `saturatedIntoU128` is the
`saturated_into()` step out of `T::Balance` (lossless by the trait bound
`Balance: Into<u128>`), and `balanceTryFromU128` is the final
`try_into()` back into `T::Balance`.  It returns the xcm `Result`
(`Err(())` maps each `.ok_or(())?` / `.map_err(|_| ())?` early return)
together with the list of events deposited during the call. -/
def deposit_asset {AccountId Balance : Type}
    (accountFromLocation : MultiLocation → Option AccountId)
    (currencyFrom : MultiAsset → MultiLocation → Option PHAXCurrencyId)
    (matcher : MultiAsset → Option Balance)
    (saturatedIntoU128 : Balance → Nat)
    (balanceTryFromU128 : Nat → Option Balance)
    (asset : MultiAsset) (location : MultiLocation) :
    Except Unit Unit × List (XEvent AccountId Balance) :=
  match accountFromLocation location with
  | none => (Except.error (), [])
  | some who =>
      match currencyFrom asset location with
      | none => (Except.error (), [])
      | some currency_id =>
          match matcher asset with
          | none => (Except.error (), [])
          | some amount =>
              match balanceTryFromU128 (saturatedIntoU128 amount) with
              | none => (Except.error (), [])
              | some balance_amount =>
                  (Except.ok (),
                   [XEvent.DepositAsset currency_id.intoVecU8 who balance_amount true])

/-- `Module::withdraw_asset`: same pipeline as `deposit_asset`, but the
success value is the input asset (`Ok(asset.clone())`) and the emitted
event is `WithdrawAsset`. -/
def withdraw_asset {AccountId Balance : Type}
    (accountFromLocation : MultiLocation → Option AccountId)
    (currencyFrom : MultiAsset → MultiLocation → Option PHAXCurrencyId)
    (matcher : MultiAsset → Option Balance)
    (saturatedIntoU128 : Balance → Nat)
    (balanceTryFromU128 : Nat → Option Balance)
    (asset : MultiAsset) (location : MultiLocation) :
    Except Unit MultiAsset × List (XEvent AccountId Balance) :=
  match accountFromLocation location with
  | none => (Except.error (), [])
  | some who =>
      match currencyFrom asset location with
      | none => (Except.error (), [])
      | some currency_id =>
          match matcher asset with
          | none => (Except.error (), [])
          | some amount =>
              match balanceTryFromU128 (saturatedIntoU128 amount) with
              | none => (Except.error (), [])
              | some balance_amount =>
                  (Except.ok asset,
                   [XEvent.WithdrawAsset currency_id.intoVecU8 who balance_amount true])

/-! ### Helper lemmas shared by several theorems -/

/-- A location whose last junction is a general key is not the single-hop
parent location. -/
theorem last_generalKey_ne_X1_Parent (id : MultiLocation) (k : Bytes)
    (h : id.last = some (.GeneralKey k)) : id ≠ .X1 .Parent := by
  intro he
  subst he
  simp [MultiLocation.last] at h

/-- Characterization of the trust filter: it answers `true` exactly when
the host baseline approves, or the asset is a concrete fungible whose
trailing junction is a general key registered with reserve location equal
to the origin. -/
theorem filter_asset_location_ok_true_iff
    (nativeAsset : MultiAsset → MultiLocation → Bool) (registry : Registry)
    (asset : MultiAsset) (origin : MultiLocation) :
    filter_asset_location nativeAsset registry asset origin = PanicOr.ok true ↔
      nativeAsset asset origin = true ∨
      ∃ id amount key, asset = MultiAsset.ConcreteFungible id amount ∧
        id.last = some (Junction.GeneralKey key) ∧ registry key = some origin := by
  cases hn : nativeAsset asset origin with
  | true => simp [filter_asset_location, hn]
  | false =>
    simp only [filter_asset_location, hn, Bool.false_eq_true, if_false, false_or]
    cases asset
    case ConcreteFungible id amount =>
      cases hl : id.last with
      | none => simp [hl]
      | some j =>
        cases j
        case GeneralKey key =>
          cases hr : registry key with
          | none =>
            simp only [hl, hr, Option.isSome_none, Bool.false_eq_true, if_false]
            refine iff_of_false (by simp) ?_
            rintro ⟨a, b, k, ⟨rfl, rfl⟩, hk, hrk⟩
            rw [hl] at hk
            simp only [Option.some.injEq, Junction.GeneralKey.injEq] at hk
            subst hk
            rw [hr] at hrk
            exact Option.noConfusion hrk
          | some reserve =>
            simp only [hl, hr, Option.isSome_some, if_true, PanicOr.ok.injEq,
              decide_eq_true_eq, MultiAsset.ConcreteFungible.injEq]
            constructor
            · intro he
              exact ⟨id, amount, key, ⟨rfl, rfl⟩, hl, by rw [hr, he]⟩
            · rintro ⟨a, b, k, ⟨rfl, rfl⟩, hk, hrk⟩
              rw [hl] at hk
              simp only [Option.some.injEq, Junction.GeneralKey.injEq] at hk
              subst hk
              rw [hr] at hrk
              exact (Option.some.inj hrk).symm
        all_goals simp [hl]
    all_goals simp

/-- The trust filter never reaches the panic branch of its `unwrap()`. -/
theorem filter_asset_location_total
    (nativeAsset : MultiAsset → MultiLocation → Bool) (registry : Registry)
    (asset : MultiAsset) (origin : MultiLocation) :
    ∃ b, filter_asset_location nativeAsset registry asset origin = PanicOr.ok b := by
  cases hn : nativeAsset asset origin with
  | true => exact ⟨true, by simp [filter_asset_location, hn]⟩
  | false =>
    simp only [filter_asset_location, hn, Bool.false_eq_true, if_false]
    cases asset
    case ConcreteFungible id amount =>
      cases hl : id.last with
      | none => exact ⟨false, by simp [hl]⟩
      | some j =>
        cases j
        case GeneralKey key =>
          cases hr : registry key with
          | none => exact ⟨false, by simp [hl, hr]⟩
          | some reserve => exact ⟨decide (origin = reserve), by simp [hl, hr]⟩
        all_goals exact ⟨false, by simp [hl]⟩
    all_goals exact ⟨false, rfl⟩

/-- The currency resolver never reaches the panic branch of its
`unwrap()`. -/
theorem from_asset_and_location_total (registry : Registry)
    (asset : MultiAsset) (loc : MultiLocation) :
    ∃ r, from_asset_and_location registry asset loc = PanicOr.ok r := by
  cases asset
  case ConcreteFungible id amount =>
    rcases eq_or_ne id (MultiLocation.X1 Junction.Parent) with hp | hp
    · exact ⟨some ⟨ChainId.RelayChain, dotBytes⟩, by simp [from_asset_and_location, hp]⟩
    · simp only [from_asset_and_location, hp, if_false]
      cases hl : id.last with
      | none => exact ⟨none, by simp [hl]⟩
      | some j =>
        cases j
        case GeneralKey key =>
          cases hr : registry key with
          | none => exact ⟨none, by simp [hl, hr]⟩
          | some reserve =>
            cases reserve
            case X2 j1 j2 =>
              cases j1
              case Parent =>
                cases j2
                case Parachain pid =>
                  exact ⟨some ⟨ChainId.ParaChain pid, key⟩, by simp [hl, hr]⟩
                all_goals exact ⟨none, by simp [hl, hr]⟩
              all_goals exact ⟨none, by simp [hl, hr]⟩
            all_goals exact ⟨none, by simp [hl, hr]⟩
        all_goals exact ⟨none, by simp [hl]⟩
  all_goals exact ⟨none, rfl⟩

/-! ### Claim theorems -/

/-- C1: the trust filter `NativePalletAssetOr::filter_asset_location`
returns true iff the host baseline `NativeAsset` check approves the
(asset, origin) pair, or the asset is a concrete fungible whose identity
ends in a registered general key and the origin equals the registered
reserve location for that key; in every other case it returns false. -/
theorem C1_filter_asset_location_trust_iff
    (nativeAsset : MultiAsset → MultiLocation → Bool) (registry : Registry)
    (asset : MultiAsset) (origin : MultiLocation) :
    (filter_asset_location nativeAsset registry asset origin = PanicOr.ok true ↔
      nativeAsset asset origin = true ∨
      ∃ id amount key, asset = MultiAsset.ConcreteFungible id amount ∧
        id.last = some (Junction.GeneralKey key) ∧ registry key = some origin) ∧
    (¬(nativeAsset asset origin = true ∨
      ∃ id amount key, asset = MultiAsset.ConcreteFungible id amount ∧
        id.last = some (Junction.GeneralKey key) ∧ registry key = some origin) →
      filter_asset_location nativeAsset registry asset origin = PanicOr.ok false) := by
  refine ⟨filter_asset_location_ok_true_iff nativeAsset registry asset origin, ?_⟩
  intro hnot
  obtain ⟨b, hb⟩ := filter_asset_location_total nativeAsset registry asset origin
  cases b with
  | false => exact hb
  | true =>
    exact absurd ((filter_asset_location_ok_true_iff nativeAsset registry asset
      origin).mp hb) hnot

/-- Witness for C1: a registered key with matching origin is trusted,
and an asset of a non-fungible variant is rejected. -/
theorem C1_filter_asset_location_trust_iff_witness :
    filter_asset_location (fun _ _ => false)
      (fun x => if x = [7] then
        some (MultiLocation.X2 Junction.Parent (Junction.Parachain 9)) else none)
      (MultiAsset.ConcreteFungible (MultiLocation.X1 (Junction.GeneralKey [7])) 5)
      (MultiLocation.X2 Junction.Parent (Junction.Parachain 9)) = PanicOr.ok true ∧
    filter_asset_location (fun _ _ => false) (fun _ => none) MultiAsset.NoneAsset
      MultiLocation.Null = PanicOr.ok false :=
  ⟨(C1_filter_asset_location_trust_iff _ _ _ _).1.mpr
    (Or.inr ⟨MultiLocation.X1 (Junction.GeneralKey [7]), 5, [7], rfl, rfl, by decide⟩),
   (C1_filter_asset_location_trust_iff _ _ _ _).2 (by
    rintro (h | ⟨a, b, k, h, -, -⟩)
    · exact Bool.noConfusion h
    · exact MultiAsset.noConfusion h)⟩

/-- C2: for a registry binding key `k` to the exact shape
`X2(Parent, Parachain(id))`, the resolver maps a concrete fungible whose
trailing junction is `GeneralKey(k)` to `{ParaChain(id), k}`; for a
trailing general key absent from the registry (the identity not being the
one-hop parent), the resolver returns nothing. -/
theorem C2_resolve_registered_general_key (registry : Registry) (k : Bytes)
    (id : MultiLocation) (amount : Nat) (origin : MultiLocation) :
    (∀ pid, registry k = some (MultiLocation.X2 Junction.Parent (Junction.Parachain pid)) →
      id.last = some (Junction.GeneralKey k) →
      from_asset_and_location registry (MultiAsset.ConcreteFungible id amount) origin =
        PanicOr.ok (some ⟨ChainId.ParaChain pid, k⟩)) ∧
    (registry k = none → id.last = some (Junction.GeneralKey k) →
      id ≠ MultiLocation.X1 Junction.Parent →
      from_asset_and_location registry (MultiAsset.ConcreteFungible id amount) origin =
        PanicOr.ok none) := by
  constructor
  · intro pid hr hl
    have hne := last_generalKey_ne_X1_Parent id k hl
    simp [from_asset_and_location, hne, hl, hr]
  · intro hr hl _hp
    have hne := last_generalKey_ne_X1_Parent id k hl
    simp [from_asset_and_location, hne, hl, hr]

/-- Witness for C2: the registered key XYZ resolves to parachain 2000,
and an unregistered key resolves to nothing. -/
theorem C2_resolve_registered_general_key_witness :
    from_asset_and_location
      (fun x => if x = [88, 89, 90] then
        some (MultiLocation.X2 Junction.Parent (Junction.Parachain 2000)) else none)
      (MultiAsset.ConcreteFungible (MultiLocation.X1 (Junction.GeneralKey [88, 89, 90])) 7)
      MultiLocation.Null =
      PanicOr.ok (some ⟨ChainId.ParaChain 2000, [88, 89, 90]⟩) ∧
    from_asset_and_location (fun _ => none)
      (MultiAsset.ConcreteFungible (MultiLocation.X1 (Junction.GeneralKey [1])) 7)
      MultiLocation.Null = PanicOr.ok none :=
  ⟨(C2_resolve_registered_general_key _ [88, 89, 90] _ 7 _).1 2000 (by decide) rfl,
   (C2_resolve_registered_general_key _ [1] _ 7 _).2 rfl rfl (by decide)⟩

/-- C3: a concrete fungible whose identity is exactly the one-hop parent
location resolves to the fixed relay-chain identity with literal currency
bytes "DOT", for every registry, amount and origin. -/
theorem C3_resolve_parent_is_relay_dot (registry : Registry) (amount : Nat)
    (origin : MultiLocation) :
    from_asset_and_location registry
      (MultiAsset.ConcreteFungible (MultiLocation.X1 Junction.Parent) amount) origin =
      PanicOr.ok (some ⟨ChainId.RelayChain, [68, 79, 84]⟩) := by
  simp [from_asset_and_location, dotBytes]

/-- C4: the matcher rebases the raw amount of a parent-identified
concrete fungible before the checked conversion (so it never returns the
direct conversion of the raw amount when the two differ), and converts
the raw amount of a recognized general-key asset without rebasing. -/
theorem C4_matches_fungible_rebases_parent {B : Type} (currencyKeyOk : Bytes → Bool)
    (fromRelayChainBalance : Nat → Nat) (checkedFromU128 : Nat → Option B) (A : Nat) :
    (matches_fungible currencyKeyOk fromRelayChainBalance checkedFromU128
        (MultiAsset.ConcreteFungible (MultiLocation.X1 Junction.Parent) A) =
      checkedFromU128 (fromRelayChainBalance A)) ∧
    (checkedFromU128 (fromRelayChainBalance A) ≠ checkedFromU128 A →
      matches_fungible currencyKeyOk fromRelayChainBalance checkedFromU128
        (MultiAsset.ConcreteFungible (MultiLocation.X1 Junction.Parent) A) ≠
        checkedFromU128 A) ∧
    (∀ id key, id.last = some (Junction.GeneralKey key) → currencyKeyOk key = true →
      matches_fungible currencyKeyOk fromRelayChainBalance checkedFromU128
        (MultiAsset.ConcreteFungible id A) = checkedFromU128 A) := by
  refine ⟨by simp [matches_fungible], ?_, ?_⟩
  · intro hne
    simpa [matches_fungible] using hne
  · intro id key hl hok
    have hne := last_generalKey_ne_X1_Parent id key hl
    simp [matches_fungible, hne, hl, hok]

/-- Witness for C4: with a doubling rebase, a parent asset of amount 3
matches as 6 and not as 3, while a recognized general-key asset of
amount 3 matches as 3. -/
theorem C4_matches_fungible_rebases_parent_witness :
    matches_fungible (fun k => decide (k = [1])) (fun n => n * 2) some
        (MultiAsset.ConcreteFungible (MultiLocation.X1 Junction.Parent) 3) = some 6 ∧
    matches_fungible (fun k => decide (k = [1])) (fun n => n * 2) some
        (MultiAsset.ConcreteFungible (MultiLocation.X1 Junction.Parent) 3) ≠ some 3 ∧
    matches_fungible (fun k => decide (k = [1])) (fun n => n * 2) some
        (MultiAsset.ConcreteFungible (MultiLocation.X1 (Junction.GeneralKey [1])) 3) =
      some 3 :=
  ⟨(C4_matches_fungible_rebases_parent (fun k => decide (k = [1])) (fun n => n * 2)
      some 3).1,
   (C4_matches_fungible_rebases_parent (fun k => decide (k = [1])) (fun n => n * 2)
      some 3).2.1 (by decide),
   (C4_matches_fungible_rebases_parent (fun k => decide (k = [1])) (fun n => n * 2)
      some 3).2.2 (MultiLocation.X1 (Junction.GeneralKey [1])) [1] rfl (by decide)⟩

/-- C8: the resolver ignores its origin argument in every branch: the
result on any asset is the same for any two origin locations. -/
theorem C8_resolve_origin_independent (registry : Registry) (asset : MultiAsset)
    (l1 l2 : MultiLocation) :
    from_asset_and_location registry asset l1 = from_asset_and_location registry asset l2 :=
  rfl

/-- C9: the trust filter, the resolver and the matcher are total on every
well-typed input: the guarded `unwrap()` calls never reach their panic
branch, and a malformed or absent trailing segment falls through to
rejection. -/
theorem C9_total_no_panic (nativeAsset : MultiAsset → MultiLocation → Bool)
    (registry : Registry) (asset1 : MultiAsset) (origin : MultiLocation)
    (asset2 : MultiAsset) (loc : MultiLocation) {B : Type}
    (currencyKeyOk : Bytes → Bool) (fromRelayChainBalance : Nat → Nat)
    (checkedFromU128 : Nat → Option B) (asset3 : MultiAsset) :
    (∃ b, filter_asset_location nativeAsset registry asset1 origin = PanicOr.ok b) ∧
    (∃ r, from_asset_and_location registry asset2 loc = PanicOr.ok r) ∧
    (∃ o, matches_fungible currencyKeyOk fromRelayChainBalance checkedFromU128 asset3 = o) :=
  ⟨filter_asset_location_total nativeAsset registry asset1 origin,
   from_asset_and_location_total registry asset2 loc,
   ⟨_, rfl⟩⟩

/-- C10: the trust filter is monotone in the registry: extending the
registry with a fresh binding preserves every accepted (asset, origin)
pair. -/
theorem C10_filter_asset_location_monotone
    (nativeAsset : MultiAsset → MultiLocation → Bool) (registry : Registry)
    (k : Bytes) (v : MultiLocation) (asset : MultiAsset) (origin : MultiLocation)
    (hk : registry k = none)
    (h : filter_asset_location nativeAsset registry asset origin = PanicOr.ok true) :
    filter_asset_location nativeAsset (registry.insert k v) asset origin =
      PanicOr.ok true := by
  rw [filter_asset_location_ok_true_iff] at h ⊢
  rcases h with h | ⟨id, amount, key, ha, hl, hrk⟩
  · exact Or.inl h
  · refine Or.inr ⟨id, amount, key, ha, hl, ?_⟩
    have hne : key ≠ k := by
      intro he
      rw [he, hk] at hrk
      exact Option.noConfusion hrk
    simpa [Registry.insert, hne] using hrk

/-- Witness for C10: a pair trusted under a one-entry registry stays
trusted after inserting a fresh binding. -/
theorem C10_filter_asset_location_monotone_witness :
    filter_asset_location (fun _ _ => false)
      (Registry.insert
        (fun x => if x = [7] then
          some (MultiLocation.X2 Junction.Parent (Junction.Parachain 9)) else none)
        [8] MultiLocation.Null)
      (MultiAsset.ConcreteFungible (MultiLocation.X1 (Junction.GeneralKey [7])) 5)
      (MultiLocation.X2 Junction.Parent (Junction.Parachain 9)) = PanicOr.ok true :=
  C10_filter_asset_location_monotone (fun _ _ => false)
    (fun x => if x = [7] then
      some (MultiLocation.X2 Junction.Parent (Junction.Parachain 9)) else none)
    [8] MultiLocation.Null
    (MultiAsset.ConcreteFungible (MultiLocation.X1 (Junction.GeneralKey [7])) 5)
    (MultiLocation.X2 Junction.Parent (Junction.Parachain 9))
    (by decide) (by decide)

/-- Decoding inverts the `Into<Vec<u8>>` serialization on every
constructible currency id (a `ParaId` being a `u32`). -/
theorem decodePHAXCurrencyId_intoVecU8 (c : PHAXCurrencyId)
    (h : ChainId.WF c.chain_id) : decodePHAXCurrencyId c.intoVecU8 = some c := by
  obtain ⟨cid, cur⟩ := c
  cases cid with
  | RelayChain =>
    simp [PHAXCurrencyId.intoVecU8, ChainId.encode, decodePHAXCurrencyId]
  | ParaChain n =>
    simp only [ChainId.WF] at h
    have harith : n % 256 + 256 * (n / 256 % 256) + 65536 * (n / 65536 % 256) +
        16777216 * (n / 16777216 % 256) = n := by
      norm_num at h
      omega
    simp [PHAXCurrencyId.intoVecU8, ChainId.encode, u32LE, decodePHAXCurrencyId, harith]

/-- C5: for both `deposit_asset` and `withdraw_asset`, either every step
succeeds and exactly one event is deposited (with `withdraw_asset`
returning the input asset), or the call errors and deposits no event; in
particular an untranslatable origin fails the call regardless of the
asset. -/
theorem C5_event_only_on_success {AccountId Balance : Type}
    (accountFromLocation : MultiLocation → Option AccountId)
    (currencyFrom : MultiAsset → MultiLocation → Option PHAXCurrencyId)
    (matcher : MultiAsset → Option Balance) (saturatedIntoU128 : Balance → Nat)
    (balanceTryFromU128 : Nat → Option Balance)
    (asset : MultiAsset) (location : MultiLocation) :
    ((deposit_asset accountFromLocation currencyFrom matcher saturatedIntoU128
        balanceTryFromU128 asset location).1 = Except.ok () ∧
      (deposit_asset accountFromLocation currencyFrom matcher saturatedIntoU128
        balanceTryFromU128 asset location).2.length = 1 ∨
     (deposit_asset accountFromLocation currencyFrom matcher saturatedIntoU128
        balanceTryFromU128 asset location).1 = Except.error () ∧
      (deposit_asset accountFromLocation currencyFrom matcher saturatedIntoU128
        balanceTryFromU128 asset location).2 = []) ∧
    ((withdraw_asset accountFromLocation currencyFrom matcher saturatedIntoU128
        balanceTryFromU128 asset location).1 = Except.ok asset ∧
      (withdraw_asset accountFromLocation currencyFrom matcher saturatedIntoU128
        balanceTryFromU128 asset location).2.length = 1 ∨
     (withdraw_asset accountFromLocation currencyFrom matcher saturatedIntoU128
        balanceTryFromU128 asset location).1 = Except.error () ∧
      (withdraw_asset accountFromLocation currencyFrom matcher saturatedIntoU128
        balanceTryFromU128 asset location).2 = []) ∧
    (accountFromLocation location = none →
      (deposit_asset accountFromLocation currencyFrom matcher saturatedIntoU128
        balanceTryFromU128 asset location).1 = Except.error () ∧
      (deposit_asset accountFromLocation currencyFrom matcher saturatedIntoU128
        balanceTryFromU128 asset location).2 = [] ∧
      (withdraw_asset accountFromLocation currencyFrom matcher saturatedIntoU128
        balanceTryFromU128 asset location).1 = Except.error () ∧
      (withdraw_asset accountFromLocation currencyFrom matcher saturatedIntoU128
        balanceTryFromU128 asset location).2 = []) := by
  cases ha : accountFromLocation location with
  | none => simp [deposit_asset, withdraw_asset, ha]
  | some who =>
    cases hc : currencyFrom asset location with
    | none => simp [deposit_asset, withdraw_asset, ha, hc]
    | some cid =>
      cases hm : matcher asset with
      | none => simp [deposit_asset, withdraw_asset, ha, hc, hm]
      | some amt =>
        cases ht : balanceTryFromU128 (saturatedIntoU128 amt) with
        | none => simp [deposit_asset, withdraw_asset, ha, hc, hm, ht]
        | some bal => simp [deposit_asset, withdraw_asset, ha, hc, hm, ht]

/-- Witness for C5: with an address translator that refuses, both entry
points error and deposit no event. -/
theorem C5_event_only_on_success_witness :
    (deposit_asset (fun _ => (none : Option Unit)) (fun _ _ => none)
      (fun _ => (none : Option Nat)) (fun b => b) (fun _ => none)
      MultiAsset.NoneAsset MultiLocation.Null).1 = Except.error () ∧
    (deposit_asset (fun _ => (none : Option Unit)) (fun _ _ => none)
      (fun _ => (none : Option Nat)) (fun b => b) (fun _ => none)
      MultiAsset.NoneAsset MultiLocation.Null).2 = [] ∧
    (withdraw_asset (fun _ => (none : Option Unit)) (fun _ _ => none)
      (fun _ => (none : Option Nat)) (fun b => b) (fun _ => none)
      MultiAsset.NoneAsset MultiLocation.Null).1 = Except.error () ∧
    (withdraw_asset (fun _ => (none : Option Unit)) (fun _ _ => none)
      (fun _ => (none : Option Nat)) (fun b => b) (fun _ => none)
      MultiAsset.NoneAsset MultiLocation.Null).2 = [] :=
  (C5_event_only_on_success (fun _ => (none : Option Unit)) (fun _ _ => none)
    (fun _ => (none : Option Nat)) (fun b => b) (fun _ => none)
    MultiAsset.NoneAsset MultiLocation.Null).2.2 rfl

/-- C6: on the all-steps-succeed path the emitted balance equals the
matcher amount exactly (given the Rust contract that the checked
`u128`-roundtrip of a balance value is lossless), and when the checked
conversion does not fit, the call errors and deposits no event. -/
theorem C6_balance_conversion_exact {AccountId Balance : Type}
    (accountFromLocation : MultiLocation → Option AccountId)
    (currencyFrom : MultiAsset → MultiLocation → Option PHAXCurrencyId)
    (matcher : MultiAsset → Option Balance) (saturatedIntoU128 : Balance → Nat)
    (balanceTryFromU128 : Nat → Option Balance)
    (asset : MultiAsset) (location : MultiLocation) :
    (∀ (who : AccountId) (cid : PHAXCurrencyId) (b : Balance),
      accountFromLocation location = some who →
      currencyFrom asset location = some cid →
      matcher asset = some b →
      balanceTryFromU128 (saturatedIntoU128 b) = some b →
      deposit_asset accountFromLocation currencyFrom matcher saturatedIntoU128
          balanceTryFromU128 asset location =
        (Except.ok (), [XEvent.DepositAsset cid.intoVecU8 who b true]) ∧
      withdraw_asset accountFromLocation currencyFrom matcher saturatedIntoU128
          balanceTryFromU128 asset location =
        (Except.ok asset, [XEvent.WithdrawAsset cid.intoVecU8 who b true])) ∧
    (∀ b : Balance, matcher asset = some b →
      balanceTryFromU128 (saturatedIntoU128 b) = none →
      (deposit_asset accountFromLocation currencyFrom matcher saturatedIntoU128
        balanceTryFromU128 asset location).1 = Except.error () ∧
      (deposit_asset accountFromLocation currencyFrom matcher saturatedIntoU128
        balanceTryFromU128 asset location).2 = [] ∧
      (withdraw_asset accountFromLocation currencyFrom matcher saturatedIntoU128
        balanceTryFromU128 asset location).1 = Except.error () ∧
      (withdraw_asset accountFromLocation currencyFrom matcher saturatedIntoU128
        balanceTryFromU128 asset location).2 = []) := by
  constructor
  · intro who cid b ha hc hm ht
    constructor <;> simp [deposit_asset, withdraw_asset, ha, hc, hm, ht]
  · intro b hm ht
    cases ha : accountFromLocation location with
    | none => simp [deposit_asset, withdraw_asset, ha]
    | some who =>
      cases hc : currencyFrom asset location with
      | none => simp [deposit_asset, withdraw_asset, ha, hc]
      | some cid => simp [deposit_asset, withdraw_asset, ha, hc, hm, ht]

/-- Witness for C6: a relay deposit of 10000000000 with identity
conversions emits exactly that amount; a conversion that does not fit
errors without an event. -/
theorem C6_balance_conversion_exact_witness :
    deposit_asset (fun _ => some ()) (fun _ _ => some ⟨ChainId.RelayChain, [68, 79, 84]⟩)
      (fun _ => some 10000000000) (fun b => b) (fun n => some n)
      (MultiAsset.ConcreteFungible (MultiLocation.X1 Junction.Parent) 10000000000)
      MultiLocation.Null =
      (Except.ok (), [XEvent.DepositAsset
        (PHAXCurrencyId.intoVecU8 ⟨ChainId.RelayChain, [68, 79, 84]⟩) ()
        10000000000 true]) ∧
    (deposit_asset (fun _ => some ()) (fun _ _ => some ⟨ChainId.RelayChain, [68, 79, 84]⟩)
      (fun _ => some (5 : Nat)) (fun b => b) (fun _ => none)
      (MultiAsset.ConcreteFungible (MultiLocation.X1 Junction.Parent) 5)
      MultiLocation.Null).2 = [] :=
  ⟨((C6_balance_conversion_exact (fun _ => some ())
      (fun _ _ => some ⟨ChainId.RelayChain, [68, 79, 84]⟩) (fun _ => some 10000000000)
      (fun b => b) (fun n => some n)
      (MultiAsset.ConcreteFungible (MultiLocation.X1 Junction.Parent) 10000000000)
      MultiLocation.Null).1 () ⟨ChainId.RelayChain, [68, 79, 84]⟩ 10000000000
      rfl rfl rfl rfl).1,
   (((C6_balance_conversion_exact (fun _ => some ())
      (fun _ _ => some ⟨ChainId.RelayChain, [68, 79, 84]⟩) (fun _ => some (5 : Nat))
      (fun b => b) (fun _ => none)
      (MultiAsset.ConcreteFungible (MultiLocation.X1 Junction.Parent) 5)
      MultiLocation.Null).2 5 rfl rfl).2).1⟩

/-- C7: the byte serialization of `PHAXCurrencyId` round-trips through
the self-delimiting decoder, and is therefore injective on constructible
values, including an empty currency byte string. -/
theorem C7_intoVecU8_reversible (c : PHAXCurrencyId) (h : ChainId.WF c.chain_id) :
    decodePHAXCurrencyId c.intoVecU8 = some c ∧
    ∀ c2, ChainId.WF c2.chain_id → c.intoVecU8 = c2.intoVecU8 → c = c2 := by
  refine ⟨decodePHAXCurrencyId_intoVecU8 c h, ?_⟩
  intro c2 h2 he
  have h1 := decodePHAXCurrencyId_intoVecU8 c h
  have h2d := decodePHAXCurrencyId_intoVecU8 c2 h2
  rw [he, h2d] at h1
  exact (Option.some.inj h1).symm

/-- Witness for C7: a parachain currency id and the relay id with empty
currency bytes both decode back from their serializations. -/
theorem C7_intoVecU8_reversible_witness :
    decodePHAXCurrencyId
      (PHAXCurrencyId.intoVecU8 ⟨ChainId.ParaChain 2000, [88, 89, 90]⟩) =
      some ⟨ChainId.ParaChain 2000, [88, 89, 90]⟩ ∧
    decodePHAXCurrencyId (PHAXCurrencyId.intoVecU8 ⟨ChainId.RelayChain, []⟩) =
      some ⟨ChainId.RelayChain, []⟩ :=
  ⟨(C7_intoVecU8_reversible ⟨ChainId.ParaChain 2000, [88, 89, 90]⟩ (by decide)).1,
   (C7_intoVecU8_reversible ⟨ChainId.RelayChain, []⟩ (by decide)).1⟩
